import Mathlib

/-!
Verification of the ngspice raw-file parser (`src/lib.rs`).

The Rust library is shallowly embedded here.  Strings are modelled as lists
of characters (`Str`), which matches Rust's `&str` at the level of the
code points the library manipulates.  Fallible code is modelled with the
`PResult` type: `.ok` and `.err` mirror Rust's `Result`, and `.panic`
records the runtime aborts (out-of-bounds indexing and string-underflow)
that the Rust code can perform; each panic site gets its own `PanicKind`
tag so that theorems can name the failing access.

`f64` values are modelled as rationals: a finite decimal literal parses to
the exact rational it denotes (rounding to binary64 is not modelled, nor
are `inf`/`NaN` spellings — no claim in scope observes either).  The
results of the `f64` operations `sqrt` and `atan` used for complex samples
are kept symbolic (`Val.mag`, `Val.phase`): no claim in scope observes
their numeric value, only how many of them are stored and where.
-/

/-- Characters of a Rust `&str`; Rust string slices are modelled as their
list of code points. -/
abbrev Str := List Char

/-- Whitespace predicate of Rust `char::is_whitespace` (the Unicode
White_Space property), used by `str::trim`. -/
def isRustWhitespace (c : Char) : Bool :=
  let n := c.toNat
  n = 0x20 || (0x9 ≤ n && n ≤ 0xD) || n = 0x85 || n = 0xA0 || n = 0x1680 ||
    (0x2000 ≤ n && n ≤ 0x200A) || n = 0x2028 || n = 0x2029 || n = 0x202F ||
    n = 0x205F || n = 0x3000

/-- Model of Rust `str::trim`: strip whitespace from both ends. -/
def trimL (l : Str) : Str :=
  ((l.dropWhile isRustWhitespace).reverse.dropWhile isRustWhitespace).reverse

/-- Model of Rust `str::split(c)` for a one-character pattern: the list of
(possibly empty) fragments between occurrences of `c`.  Always returns at
least one fragment, like the Rust iterator. -/
def splitOnChar (c : Char) : Str → List Str
  | [] => [[]]
  | x :: xs =>
    let r := splitOnChar c xs
    if x = c then [] :: r
    else
      match r with
      | [] => [[x]]
      | y :: ys => (x :: y) :: ys

/-- Strip one trailing carriage return, as Rust `lines()` does from every
line that was terminated by `\n`. -/
def stripCR (l : Str) : Str :=
  if l.getLast? = some '\r' then l.dropLast else l

/-- Helper for `rustLines`: the fragments produced by splitting on `\n`.
Every fragment except the last was `\n`-terminated, so it loses one
trailing `\r`; the last fragment is dropped when empty (a trailing final
newline, or empty input, yields no extra line). -/
def rustLinesAux : List Str → List Str
  | [] => []
  | [l] => if l = [] then [] else [l]
  | l :: ls => stripCR l :: rustLinesAux ls

/-- Model of Rust `str::lines()` as used by `parse` (src/lib.rs line 78). -/
def rustLines (s : Str) : List Str :=
  rustLinesAux (splitOnChar '\n' s)

/-- Decimal digit test, `'0' ≤ c ≤ '9'`. -/
def isDigitCh (c : Char) : Bool :=
  '0' ≤ c && c ≤ '9'

/-- Value of a string of decimal digits. -/
def digitsToNat (l : Str) : ℕ :=
  l.foldl (fun a c => a * 10 + (c.toNat - 48)) 0

/-- Model of Rust `str::parse::<usize>()` (src/lib.rs lines 98-99): an
optional `+` sign followed by at least one decimal digit, rejecting
values that overflow a 64-bit `usize`.  `none` is a `ParseIntError`. -/
def parseUsize (s : Str) : Option ℕ :=
  let s' := match s with
    | '+' :: r => r
    | r => r
  if s' ≠ [] ∧ s'.all isDigitCh ∧ digitsToNat s' < 2 ^ 64 then
    some (digitsToNat s')
  else none

/-- The rational `sgn * m * 10 ^ e`, built with integer arithmetic and a
single normalizing `mkRat` so that it evaluates by kernel reduction. -/
def decValue (sgn : ℤ) (m : ℕ) (e : ℤ) : ℚ :=
  if 0 ≤ e then mkRat (sgn * (m : ℤ) * (10 : ℤ) ^ e.toNat) 1
  else mkRat (sgn * (m : ℤ)) ((10 : ℕ) ^ (-e).toNat)

/-- Model of Rust `str::parse::<f64>()` (src/lib.rs lines 133, 136-137)
restricted to finite decimal literals: optional sign, a mantissa
`digits [. digits]` or `. digits` holding at least one digit, and an
optional `e`/`E` exponent.  The denoted value is `sign * (integer and
fractional digits) * 10 ^ (exponent - fractional digit count)`, the exact
rational (rounding to the nearest binary64 is not modelled); the `inf`/
`infinity`/`nan` spellings accepted by Rust are outside this model — no
claim in scope exercises them.  `none` is a `ParseFloatError`. -/
def parseFloat (s : Str) : Option ℚ :=
  let sr : ℤ × Str := match s with
    | '+' :: r => (1, r)
    | '-' :: r => (-1, r)
    | r => (1, r)
  let ip := sr.2.takeWhile isDigitCh
  let r1 := sr.2.dropWhile isDigitCh
  let fr : Str × Str := match r1 with
    | '.' :: r => (r.takeWhile isDigitCh, r.dropWhile isDigitCh)
    | r => ([], r)
  if ip = [] ∧ fr.1 = [] then none
  else
    let m := digitsToNat (ip ++ fr.1)
    match fr.2 with
    | [] => some (decValue sr.1 m (-(fr.1.length : ℤ)))
    | e :: r3 =>
      if e = 'e' ∨ e = 'E' then
        let er : ℤ × Str := match r3 with
          | '+' :: r => (1, r)
          | '-' :: r => (-1, r)
          | r => (1, r)
        if er.2 ≠ [] ∧ er.2.all isDigitCh then
          some (decValue sr.1 m
            (er.1 * (digitsToNat er.2 : ℤ) - (fr.1.length : ℤ)))
        else none
      else none

/-- The `Flags` enum of src/lib.rs lines 2-6. -/
inductive Flags
  | Complex
  | Real
deriving DecidableEq, Repr

/-- An `f64` sample value.  A `lit` is a finite decimal parsed directly
from the text (with `lit 0` for the literal `0f64`); `mag re im` and
`phase re im` stand for `sqrt(re^2 + im^2)` and `atan(im / re)` computed
by the Complex branch of `parse` (src/lib.rs lines 139-140) — kept
symbolic because no claim in scope observes their numeric value. -/
inductive Val
  | lit : ℚ → Val
  | mag : ℚ → ℚ → Val
  | phase : ℚ → ℚ → Val
deriving DecidableEq, Repr

/-- The `VarData` struct of src/lib.rs lines 7-13. -/
structure VarData where
  name : Str
  typee : Str
  values : List Val
  angles : Option (List Val)
deriving DecidableEq, Repr

/-- The `Plot` struct of src/lib.rs lines 14-23. -/
structure Plot where
  title : Str
  date : Str
  plotname : Str
  flags : Flags
  no_of_variables : ℕ
  no_of_points : ℕ
  data : List VarData
deriving DecidableEq, Repr

/-- The `SpiceParseError` enum of src/lib.rs lines 25-37.  The spec names
these kinds `IntegerFormat`, `FloatFormat`, `VariableCountMismatch`,
`ValueCountMismatch`, `UnknownFlag` respectively. -/
inductive SpiceParseError
  | ParseInt
  | ParseFloat
  | NoOfVarMismatch
  | NoOfValMismatch
  | UnknownFlag
deriving DecidableEq, Repr

/-- The runtime aborts the Rust code can perform, one tag per panic
site: `metaField` for `parts[1]` on a Meta line (src/lib.rs lines 86-99),
`varField` for `parts[1]`/`parts[2]` on a Variable line (lines 116-117),
`complexField` for `pts[1]` on a comma-less Complex sample (line 137),
`flushIndex` for `data[idx]` in `flush_values` when the series list is
shorter than the sample buffer (lines 50-52), `csvHeader` for
`ret.remove(ret.len() - 1)` on an empty header (line 172), and `csvIndex`
for `data[j]`/`values[i]`/`angles[i]` in the CSV row loop
(lines 177-182). -/
inductive PanicKind
  | metaField
  | varField
  | complexField
  | flushIndex
  | csvHeader
  | csvIndex
deriving DecidableEq, Repr

/-- Outcome of running a piece of the Rust code: a value, an early
`return Err(...)`, or a panic (abort). -/
inductive PResult (α : Type)
  | ok : α → PResult α
  | err : SpiceParseError → PResult α
  | panic : PanicKind → PResult α
deriving DecidableEq, Repr

/-- Sequencing that propagates errors and panics, the model of Rust `?`
and of statements after a fallible call. -/
def PResult.bind {α β : Type} : PResult α → (α → PResult β) → PResult β
  | .ok a, f => f a
  | .err e, _ => .err e
  | .panic k, _ => .panic k

/-- Append one flushed sample pair to each of the leading series, the
loop body of `flush_values` (src/lib.rs lines 48-57): `values` always
receives the first component; `angles` receives the second only when the
flags are `Complex` and the series has an angle vector.  Returns `none`
(a panic) when the series list is shorter than the buffer, the
out-of-bounds `data[idx]`. -/
def pushPoint (flags : Flags) : List (Val × Val) → List VarData → Option (List VarData)
  | [], ds => some ds
  | _ :: _, [] => none
  | v :: vs, d :: ds =>
    let d' : VarData :=
      { d with
        values := d.values ++ [v.1]
        angles := match flags, d.angles with
          | .Complex, some a => some (a ++ [v.2])
          | _, _ => d.angles }
    (pushPoint flags vs ds).map fun r => d' :: r

/-- The `flush_values` function of src/lib.rs lines 38-61.  Returns the
new buffer (cleared on a successful flush) and the new series list. -/
def flush_values (no_of_variables : ℕ) (temp_values : List (Val × Val))
    (data : List VarData) (flags : Flags) :
    PResult (List (Val × Val) × List VarData) :=
  if temp_values.length ≠ 0 then
    if temp_values.length ≠ no_of_variables then .err .NoOfValMismatch
    else
      match pushPoint flags temp_values data with
      | some data' => .ok ([], data')
      | none => .panic .flushIndex
  else .ok (temp_values, data)

/-- The `Modes` enum local to `parse` (src/lib.rs lines 70-74). -/
inductive Modes
  | Meta
  | Variable
  | Value
deriving DecidableEq, Repr

/-- The mutable local state of `parse` (src/lib.rs lines 63-77). -/
structure PState where
  title : Str
  date : Str
  plotname : Str
  flags : Flags
  no_of_variables : ℕ
  no_of_points : ℕ
  data : List VarData
  mode : Modes
  variable_counter : ℕ
  temp_values : List (Val × Val)
deriving DecidableEq, Repr

/-- The initial state of `parse`. -/
def initState : PState :=
  ⟨[], [], [], .Real, 0, 0, [], .Meta, 0, []⟩

/-- One Meta-mode line (src/lib.rs lines 83-104), applied to the already
split `parts` of the trimmed line.  `parts[0]` on an empty vector and the
missing `parts[1]` of a matched key are both the `metaField` panic; the
split in `step` never produces an empty vector, so the first arm is
unreachable. -/
def stepMeta (st : PState) (parts : List Str) : PResult PState :=
  match parts with
  | [] => .panic .metaField
  | p0 :: rest =>
    if p0 = "Title".data then
      match rest with
      | p :: _ => .ok { st with title := trimL p }
      | [] => .panic .metaField
    else if p0 = "Date".data then
      .ok { st with date := trimL rest.flatten }
    else if p0 = "Plotname".data then
      match rest with
      | p :: _ => .ok { st with plotname := trimL p }
      | [] => .panic .metaField
    else if p0 = "Flags".data then
      match rest with
      | p :: _ =>
        if trimL p = "complex".data then .ok { st with flags := .Complex }
        else if trimL p = "real".data then .ok { st with flags := .Real }
        else .err .UnknownFlag
      | [] => .panic .metaField
    else if p0 = "No. Variables".data then
      match rest with
      | p :: _ =>
        match parseUsize (trimL p) with
        | some n => .ok { st with no_of_variables := n }
        | none => .err .ParseInt
      | [] => .panic .metaField
    else if p0 = "No. Points".data then
      match rest with
      | p :: _ =>
        match parseUsize (trimL p) with
        | some n => .ok { st with no_of_points := n }
        | none => .err .ParseInt
      | [] => .panic .metaField
    else if p0 = "Variables".data then .ok { st with mode := .Variable }
    else if p0 = "Values".data then .ok { st with mode := .Value }
    else .ok st

/-- One Variable-mode line (src/lib.rs lines 105-124): reject when the
counter already equals the declared count, advance the counter, fall back
to Meta mode when it reaches the declared count, then append a series
from fields 1 and 2 of the tab-split line (missing fields are the
`varField` panic). -/
def stepVariable (st : PState) (lin : Str) : PResult PState :=
  if st.variable_counter = st.no_of_variables then .err .NoOfVarMismatch
  else
    let c' := st.variable_counter + 1
    let mode' : Modes := if c' = st.no_of_variables then .Meta else .Variable
    let parts := splitOnChar '\t' (trimL lin)
    match parts with
    | _ :: p1 :: p2 :: _ =>
      .ok { st with
            variable_counter := c'
            mode := mode'
            data := st.data ++ [⟨trimL p1, trimL p2, [],
              match st.flags with
              | .Real => none
              | .Complex => some []⟩] }
    | _ => .panic .varField

/-- One Value-mode line (src/lib.rs lines 125-145): a two-field line
first flushes the buffered point and takes field 1 as the sample, any
other line takes field 0; the sample is parsed per the flags (a missing
comma in a Complex sample is the `complexField` panic) and appended to
the buffer. -/
def stepValue (st : PState) (lin : Str) : PResult PState :=
  let parts := splitOnChar '\t' (trimL lin)
  let fl : PResult (Str × List (Val × Val) × List VarData) :=
    if parts.length = 2 then
      match flush_values st.no_of_variables st.temp_values st.data st.flags with
      | .ok (t, d) => .ok (parts.getD 1 [], t, d)
      | .err e => .err e
      | .panic k => .panic k
    else .ok (parts.headI, st.temp_values, st.data)
  PResult.bind fl fun ntd =>
    match st.flags with
    | .Real =>
      match parseFloat ntd.1 with
      | some q => .ok { st with temp_values := ntd.2.1 ++ [(.lit q, .lit 0)], data := ntd.2.2 }
      | none => .err .ParseFloat
    | .Complex =>
      let pts := splitOnChar ',' ntd.1
      match parseFloat pts.headI with
      | some r =>
        match pts with
        | _ :: p1 :: _ =>
          match parseFloat p1 with
          | some i => .ok { st with temp_values := ntd.2.1 ++ [(.mag r i, .phase r i)], data := ntd.2.2 }
          | none => .err .ParseFloat
        | _ => .panic .complexField
      | none => .err .ParseFloat

/-- One iteration of the line loop of `parse` (src/lib.rs lines 82-146),
for a line that is not blank after trimming. -/
def step (st : PState) (lin : Str) : PResult PState :=
  match st.mode with
  | .Meta => stepMeta st (splitOnChar ':' (trimL lin))
  | .Variable => stepVariable st lin
  | .Value => stepValue st lin

/-- The line loop of `parse` (src/lib.rs lines 78-147): blank lines are
skipped in every mode, errors and panics abort the loop. -/
def runLines : PState → List Str → PResult PState
  | st, [] => .ok st
  | st, l :: ls =>
    if (trimL l).length = 0 then runLines st ls
    else
      match step st l with
      | .ok st' => runLines st' ls
      | .err e => .err e
      | .panic k => .panic k

/-- The body of `parse` after splitting into lines (src/lib.rs lines
62-158): run the line loop, perform the final flush, and assemble the
`Plot`. -/
def parseRaw (lines : List Str) : PResult Plot :=
  match runLines initState lines with
  | .ok st =>
    match flush_values st.no_of_variables st.temp_values st.data st.flags with
    | .ok td => .ok ⟨st.title, st.date, st.plotname, st.flags,
        st.no_of_variables, st.no_of_points, td.2⟩
    | .err e => .err e
    | .panic k => .panic k
  | .err e => .err e
  | .panic k => .panic k

/-- The public `parse` function of src/lib.rs lines 62-158. -/
def parse (file : String) : PResult Plot :=
  parseRaw (rustLines file.data)

/-- Fractional decimal digits of `r / d` (`r < d`), with enough fuel for
any value a claim evaluates; stops when the remainder is exhausted, like
the shortest representation Rust prints for exactly representable
values. -/
def fracDigits : ℕ → ℕ → ℕ → Str
  | _, _, 0 => []
  | r, d, fuel + 1 =>
    if r = 0 then []
    else Nat.digitChar (r * 10 / d) :: fracDigits (r * 10 % d) d fuel

/-- Decimal rendering of a rational, the model of Rust
`f64::to_string()` (src/lib.rs lines 177, 180) for values with a finite
decimal expansion: sign, integer part, and fractional digits only when
nonzero (Rust prints `1f64` as `"1"`). -/
def ratToDecimal (q : ℚ) : Str :=
  let n := q.num.natAbs
  let d := q.den
  (if q.num < 0 then ['-'] else []) ++ Nat.toDigits 10 (n / d) ++
    (if n % d = 0 then [] else '.' :: fracDigits (n % d) d 40)

/-- Textual form of a stored sample in the CSV.  The symbolic `mag`/
`phase` values (the `f64` `sqrt`/`atan` results of a Complex document)
have no modelled decimal text; no claim in scope evaluates the CSV of a
Complex document, so they render as an unspecified marker. -/
def valToString : Val → Str
  | .lit q => ratToDecimal q
  | .mag _ _ => "<f64>".data
  | .phase _ _ => "<f64>".data

/-- Textual form of `angle.to_degrees()` (src/lib.rs line 182).  Degrees
conversion multiplies by `180 / π`, a transcendental operation on the
already symbolic phase; unmodelled for the same reason as above. -/
def valToDegreesString (_ : Val) : Str :=
  "<f64>".data

/-- The mis-encoded degree marker appended after phase values, the
two-character literal at src/lib.rs line 183. -/
def degreeMark : Str :=
  "Â°".data

/-- The CSV header row before separator removal (src/lib.rs lines
162-171): for each series `name - typee,`, plus `typee(phase),` when the
flags are Complex. -/
def csvHeaderStr (plot : Plot) : Str :=
  plot.data.foldl
    (fun acc vd =>
      acc ++ vd.name ++ " - ".data ++ vd.typee ++ [','] ++
        (match plot.flags with
         | .Complex => vd.typee ++ "(phase),".data
         | .Real => []))
    []

/-- One CSV cell (src/lib.rs lines 176-189): point `i` of series `j`.
Out-of-range `data[j]`, `values[i]` or `angles[i]` is the `csvIndex`
panic; a Complex series without an angle vector yields the empty
string without touching `values`. -/
def csvCell (plot : Plot) (i j : ℕ) : PResult Str :=
  match plot.data.get? j with
  | none => .panic .csvIndex
  | some vd =>
    match plot.flags with
    | .Real =>
      match vd.values.get? i with
      | some v => .ok (valToString v)
      | none => .panic .csvIndex
    | .Complex =>
      match vd.angles with
      | some a =>
        match vd.values.get? i, a.get? i with
        | some v, some ang =>
          .ok (valToString v ++ [','] ++ valToDegreesString ang ++ degreeMark)
        | _, _ => .panic .csvIndex
      | none => .ok []

/-- The CSV data rows (src/lib.rs lines 174-197): `no_of_points` rows of
`no_of_variables` cells, comma-separated, each row ended by a newline in
place of the last separator. -/
def csvRows (plot : Plot) : PResult Str :=
  (List.range plot.no_of_points).foldl
    (fun acc i =>
      (List.range plot.no_of_variables).foldl
        (fun acc2 j =>
          PResult.bind acc2 fun s =>
            PResult.bind (csvCell plot i j) fun cell =>
              .ok (s ++ cell ++
                (if j ≠ plot.no_of_variables - 1 then [','] else ['\n'])))
        acc)
    (.ok [])

/-- The public `parse_and_get_csv` function of src/lib.rs lines 159-199.
`ret.remove(ret.len() - 1)` on the empty header (a document with no
series) underflows `usize` and aborts: the `csvHeader` panic.  When the
header is nonempty its last character is always the `,` just appended,
so the removal drops exactly that separator. -/
def parse_and_get_csv (file : String) : PResult Str :=
  PResult.bind (parse file) fun plot =>
    match csvHeaderStr plot with
    | [] => .panic .csvHeader
    | h :: t =>
      PResult.bind (csvRows plot) fun rows =>
        .ok ((h :: t).dropLast ++ ['\n'] ++ rows)

/-- A line that a Meta-mode iteration leaves the state unchanged on: its
first colon-fragment matches none of the eight recognized header keys
(src/lib.rs line 102, the catch-all match arm). -/
abbrev metaInert (x : Str) : Prop :=
  (splitOnChar ':' (trimL x)).headI ∉
    ["Title".data, "Date".data, "Plotname".data, "Flags".data,
     "No. Variables".data, "No. Points".data, "Variables".data, "Values".data]

/-- The four lines preceding the surplus variable line in the C5
scenario: a header declaring two variables and a complete Variables
section supplying exactly two variable records. -/
def c5head : List Str :=
  ["No. Variables: 2".data, "Variables:".data, "0\ta\tb".data, "1\tc\td".data]

/-- The parser state after consuming `c5head`: both declared variables
are read and the mode has already fallen back to Meta. -/
def c5state : PState :=
  ⟨[], [], [], .Real, 2, 0,
    [⟨"a".data, "b".data, [], none⟩, ⟨"c".data, "d".data, [], none⟩],
    .Meta, 2, []⟩

/-- An input whose header declares five points but whose Values section
supplies only two. -/
def c2input : String :=
  "No. Variables: 1\nNo. Points: 5\nVariables:\n0\tv\tvolt\nValues:\n0\t1.0\n1\t2.0"

/-- An input whose header declares two variables but whose Variables
section supplies only one record. -/
def c3input : String := "No. Variables: 2\nNo. Points: 1\nVariables:\n0\ta\tb"

/-- The end-to-end Real input of the spec's §8 scenario. -/
def c9input : String :=
  "Title: t\nDate: d\nPlotname: p\nFlags: real\nNo. Variables: 2\nNo. Points: 2\nVariables:\n0\ttime\ttime\n1\tv1\tvoltage\nValues:\n0\t0.0\n1.0\n1\t1.0\n2.0"

/-- The split of a Rust `str::split` never yields an empty fragment
list. -/
theorem splitOnChar_ne_nil (c : Char) (l : Str) : splitOnChar c l ≠ [] := by
  cases l with
  | nil => simp [splitOnChar]
  | cons x xs =>
    simp only [splitOnChar]
    by_cases h : x = c
    · simp [h]
    · simp only [if_neg h]
      cases splitOnChar c xs <;> simp

/-- The line loop over an appended list runs in two stages, the second
only when the first finishes cleanly. -/
theorem runLines_append (a : List Str) (st : PState) (b : List Str) :
    runLines st (a ++ b) =
      match runLines st a with
      | .ok s => runLines s b
      | .err e => .err e
      | .panic k => .panic k := by
  induction a generalizing st with
  | nil => simp [runLines]
  | cons l ls ih =>
    simp only [List.cons_append, runLines]
    by_cases h : (trimL l).length = 0
    · rw [if_pos h, if_pos h]
      exact ih st
    · rw [if_neg h, if_neg h]
      cases step st l with
      | ok st' => exact ih st'
      | err e => rfl
      | panic k => rfl

/-- The line loop skips every line that is blank after trimming, in any
state. -/
theorem runLines_blank (ls : List Str) (st : PState) :
    (∀ l ∈ ls, (trimL l).length = 0) → runLines st ls = .ok st := by
  induction ls with
  | nil => intro _; rfl
  | cons l t ih =>
    intro h
    have hl : (trimL l).length = 0 := h l (List.mem_cons_self l t)
    simp only [runLines, if_pos hl]
    exact ih fun x hx => h x (List.mem_cons_of_mem l hx)

/-- A Meta-mode line whose key matches none of the recognized header
keys leaves the state unchanged (the catch-all arm at src/lib.rs
line 102). -/
theorem stepMeta_inert_cons (st : PState) (p0 : Str) (ps : List Str)
    (h1 : p0 ≠ "Title".data) (h2 : p0 ≠ "Date".data)
    (h3 : p0 ≠ "Plotname".data) (h4 : p0 ≠ "Flags".data)
    (h5 : p0 ≠ "No. Variables".data) (h6 : p0 ≠ "No. Points".data)
    (h7 : p0 ≠ "Variables".data) (h8 : p0 ≠ "Values".data) :
    stepMeta st (p0 :: ps) = .ok st := by
  simp [stepMeta, h1, h2, h3, h4, h5, h6, h7, h8]

/-- A Meta-mode `Flags` line whose value after the first colon trims to
neither `complex` nor `real` returns `UnknownFlag` (src/lib.rs
lines 89-97). -/
theorem stepMeta_flags_bad (st : PState) (v : Str) (rest : List Str)
    (hc : trimL v ≠ "complex".data) (hr : trimL v ≠ "real".data) :
    stepMeta st ("Flags".data :: v :: rest) = .err .UnknownFlag := by
  have e1 : ("Flags".data : Str) ≠ "Title".data := by decide
  have e2 : ("Flags".data : Str) ≠ "Date".data := by decide
  have e3 : ("Flags".data : Str) ≠ "Plotname".data := by decide
  simp [stepMeta, e1, e2, e3, hc, hr]

/-- In Meta mode, an inert line leaves the whole step unchanged. -/
theorem step_meta_inert (st : PState) (x : Str) (hm : st.mode = .Meta)
    (hi : metaInert x) : step st x = .ok st := by
  obtain ⟨p0, ps, hps⟩ : ∃ p0 ps, splitOnChar ':' (trimL x) = p0 :: ps := by
    cases hsp : splitOnChar ':' (trimL x) with
    | nil => exact absurd hsp (splitOnChar_ne_nil _ _)
    | cons a b => exact ⟨a, b, rfl⟩
  rw [metaInert, hps] at hi
  simp only [List.headI, List.mem_cons, List.not_mem_nil, or_false, not_or] at hi
  obtain ⟨h1, h2, h3, h4, h5, h6, h7, h8⟩ := hi
  unfold step
  rw [hm]
  show stepMeta st (splitOnChar ':' (trimL x)) = .ok st
  rw [hps]
  exact stepMeta_inert_cons st p0 ps h1 h2 h3 h4 h5 h6 h7 h8

/-- Dropping an inert line from the remaining input does not change the
line loop's result when the current mode is Meta. -/
theorem runLines_inert (st : PState) (x : Str) (post : List Str)
    (hm : st.mode = .Meta) (hi : metaInert x) :
    runLines st (x :: post) = runLines st post := by
  by_cases h : (trimL x).length = 0
  · simp only [runLines, if_pos h]
  · simp only [runLines, if_neg h, step_meta_inert st x hm hi]

/-- Concrete evaluation of the C5 scenario's first four lines. -/
theorem c5head_runs : runLines initState c5head = .ok c5state := by decide

/-- A surplus inert line after the complete Variables section of
`c5head` does not affect the line loop. -/
theorem c5_runLines_eq (x : Str) (post : List Str) (hi : metaInert x) :
    runLines initState (c5head ++ x :: post) =
      runLines initState (c5head ++ post) := by
  rw [runLines_append, runLines_append, c5head_runs]
  exact runLines_inert c5state x post rfl hi

/-- C1: the claim says `parse` always returns a Document or one of the
five classified errors and never faults, in particular not on a Meta
line whose matched key has no colon remainder, a Variable line with
fewer than three tab fields, or a Complex sample without a comma.  The
code faults (panics on out-of-bounds indexing) in exactly those three
situations; this theorem evaluates one concrete input of each kind. -/
theorem c1_parse_panics :
    parse "Title" = .panic .metaField ∧
      parse "No. Variables: 1\nVariables:\nx" = .panic .varField ∧
      parse "Flags: complex\nNo. Variables: 1\nNo. Points: 1\nVariables:\n0\tv\tvolt\nValues:\n0\t1.0" =
        .panic .complexField :=
  ⟨by decide, by decide, by decide⟩

/-- C2: the claim says every series of a successfully parsed Document
has `values.length` equal to the declared `No. Points` value.  The code
never validates the declared point count: `c2input` declares five points
but supplies two, `parse` succeeds with `values = [1, 2]` of length two,
and the code's own CSV exporter then indexes `values[2]` out of bounds —
the exporter relies on exactly the invariant the parser fails to
enforce. -/
theorem c2_point_count_not_validated :
    parse c2input =
      .ok ⟨[], [], [], .Real, 1, 5,
        [⟨"v".data, "volt".data, [.lit 1, .lit 2], none⟩]⟩ ∧
      parse_and_get_csv c2input = .panic .csvIndex :=
  ⟨by decide, by decide⟩

/-- C3: the claim says the series count of a successfully parsed
Document equals the declared `No. Variables` value.  The code never
cross-checks them: an input declaring two variables with no Variables
section parses to zero series, one with a truncated Variables section
parses to one series, and on the latter the code's own CSV exporter
indexes `data[0].values[0]` out of bounds. -/
theorem c3_series_count_not_validated :
    parse "No. Variables: 2" = .ok ⟨[], [], [], .Real, 2, 0, []⟩ ∧
      parse c3input =
        .ok ⟨[], [], [], .Real, 2, 1, [⟨"a".data, "b".data, [], none⟩]⟩ ∧
      parse_and_get_csv c3input = .panic .csvIndex :=
  ⟨by decide, by decide, by decide⟩

/-- C4: the claim says angles are present on every series iff the
Document's flags are Complex, absent iff Real, with
`angles.length = values.length` when present.  Each series' angle vector
is fixed by the flags value at the moment the series is declared, and a
later `Flags` header line changes the Document's flags without touching
existing series: the first input yields flags Complex with an
angle-less series, the second yields flags Real with a series carrying
an empty angle vector next to one value. -/
theorem c4_angles_desynced_from_flags :
    parse "Flags: real\nNo. Variables: 1\nVariables:\n0\tv\tvolt\nFlags: complex" =
      .ok ⟨[], [], [], .Complex, 1, 0, [⟨"v".data, "volt".data, [], none⟩]⟩ ∧
      parse "Flags: complex\nNo. Variables: 1\nVariables:\n0\tv\tvolt\nFlags: real\nValues:\n0\t1.0" =
        .ok ⟨[], [], [], .Real, 1, 0,
          [⟨"v".data, "volt".data, [.lit 1], some []⟩]⟩ :=
  ⟨by decide, by decide⟩

/-- C5 counterexample: the claim says a header declaring
`No. Variables: 2` with three variable lines fails with
`VariableCountMismatch`; on this concrete such input `parse` instead
succeeds, returning the first two variables and ignoring the third
line. -/
theorem c5_counterexample :
    parse "No. Variables: 2\nVariables:\n0\ta\tb\n1\tc\td\n2\te\tf" =
      .ok ⟨[], [], [], .Real, 2, 0,
        [⟨"a".data, "b".data, [], none⟩, ⟨"c".data, "d".data, [], none⟩]⟩ := by
  decide

/-- C5 amended: after the second variable line the parser is already
back in Meta mode, so any surplus third record — any line whose first
colon-fragment is not a recognized header key — is ignored, and parsing
proceeds exactly as if the line were absent; `VariableCountMismatch`
fires only when a line arrives in Variable mode while the counter
already equals the declared count, e.g. when the declared count is
zero. -/
theorem c5_surplus_line_ignored :
    (∀ (x : Str) (post : List Str), metaInert x →
        parseRaw (c5head ++ x :: post) = parseRaw (c5head ++ post)) ∧
      parse "No. Variables: 0\nVariables:\nx" = .err .NoOfVarMismatch := by
  constructor
  · intro x post hi
    unfold parseRaw
    rw [c5_runLines_eq x post hi]
  · decide

/-- C5 witness: the amended theorem applied to the concrete surplus
record `2\te\tf` with no following lines. -/
theorem c5_surplus_line_ignored_witness :
    parseRaw (c5head ++ "2\te\tf".data :: []) = parseRaw (c5head ++ []) :=
  c5_surplus_line_ignored.1 "2\te\tf".data [] (by decide)

/-- C6: the claim (and the spec's §8 bullet) says exporting a Document
with zero declared variables must not underflow when removing the header
row's trailing separator.  The code computes `ret.remove(ret.len() - 1)`
on the empty header string, a `usize` underflow followed by an
out-of-bounds removal: the model aborts with the `csvHeader` panic on
the empty input, which parses to a zero-variable Document. -/
theorem c6_empty_header_underflows :
    parse_and_get_csv "" = .panic .csvHeader := by
  decide

/-- C7: whenever a flushed point's non-empty sample buffer has a length
different from the declared variable count, `flush_values` fails with
`ValueCountMismatch` (first conjunct, fully general); in particular an
input supplying three samples for a point under `No. Variables: 2`
makes `parse` fail with that error (second conjunct, the end-of-input
flush of the three buffered samples). -/
theorem c7_value_count_mismatch :
    (∀ (n : ℕ) (temp : List (Val × Val)) (data : List VarData) (flags : Flags),
        temp.length ≠ 0 → temp.length ≠ n →
        flush_values n temp data flags = .err .NoOfValMismatch) ∧
      parse "No. Variables: 2\nNo. Points: 1\nVariables:\n0\ta\tb\n1\tc\td\nValues:\n0\t1.0\n2.0\n3.0" =
        .err .NoOfValMismatch := by
  constructor
  · intro n temp data flags h1 h2
    unfold flush_values
    rw [if_pos h1, if_pos h2]
  · decide

/-- C7 witness: the general conjunct applied to a concrete one-sample
buffer under a declared count of two. -/
theorem c7_value_count_mismatch_witness :
    flush_values 2 [(Val.lit 1, Val.lit 0)] [] Flags.Real =
      .err .NoOfValMismatch :=
  c7_value_count_mismatch.1 2 [(Val.lit 1, Val.lit 0)] [] Flags.Real
    (by decide) (by decide)

/-- C8 counterexample: the claim says any `Flags:` line whose trimmed
value is neither the exact string `real` nor the exact string `complex`
fails with `UnknownFlag`.  On a multi-colon line the code compares only
`parts[1]`, the fragment between the first and second colon: the line
`Flags: real:x` has trimmed value `real:x` — neither exact string — yet
`parse` succeeds with flags `Real`, and `Flags: complex:junk` succeeds
with flags `Complex`. -/
theorem c8_counterexample :
    parse "Flags: real:x" = .ok ⟨[], [], [], .Real, 0, 0, []⟩ ∧
      parse "Flags: complex:junk" = .ok ⟨[], [], [], .Complex, 0, 0, []⟩ :=
  ⟨by decide, by decide⟩

/-- C8 amended: any input containing a line that is reached in Meta
state, whose first colon-fragment is exactly `Flags`, and whose second
colon-fragment — the fragment between the first and second colon, which
is all the code compares — trims to neither `real` nor `complex`, makes
`parse` fail with `UnknownFlag`: the error is raised at that line and
aborts the whole parse regardless of the remaining input.  (For the
canonical single-colon `Flags` line the second fragment is the whole
remainder, so this is the claim's reading there; fragments after a
second colon are ignored by the code.) -/
theorem c8_unknown_flag (f : String) (pre post : List Str) (lin v : Str)
    (rest : List Str) (st : PState)
    (hsplit : rustLines f.data = pre ++ lin :: post)
    (hrun : runLines initState pre = .ok st)
    (hm : st.mode = .Meta)
    (hparts : splitOnChar ':' (trimL lin) = "Flags".data :: v :: rest)
    (hc : trimL v ≠ "complex".data) (hr : trimL v ≠ "real".data) :
    parse f = .err .UnknownFlag := by
  have hnb : ¬((trimL lin).length = 0) := by
    intro h0
    rw [List.length_eq_zero] at h0
    rw [h0] at hparts
    have hlen := congrArg List.length hparts
    simp [splitOnChar] at hlen
  have h1 : runLines initState (pre ++ lin :: post) = .err .UnknownFlag := by
    rw [runLines_append, hrun]
    show runLines st (lin :: post) = .err .UnknownFlag
    simp only [runLines, if_neg hnb]
    have hstep : step st lin = .err .UnknownFlag := by
      unfold step
      rw [hm]
      show stepMeta st (splitOnChar ':' (trimL lin)) = .err .UnknownFlag
      rw [hparts]
      exact stepMeta_flags_bad st v rest hc hr
    rw [hstep]
  unfold parse parseRaw
  rw [hsplit, h1]

/-- C8 witness: the amended theorem applied to the spec's example input
`Flags: weird`, reached in the initial Meta state with no preceding
lines. -/
theorem c8_unknown_flag_witness : parse "Flags: weird" = .err .UnknownFlag :=
  c8_unknown_flag "Flags: weird" [] [] "Flags: weird".data " weird".data []
    initState (by decide) rfl rfl (by decide) (by decide) (by decide)

/-- C9: the spec's end-to-end Real scenario: the two-variable,
two-point input parses to a Document whose series hold values
`[0, 1]` and `[1, 2]`, and its CSV export is the header
`time - time,v1 - voltage` followed by the rows `0,1` and `1,2`, each
line terminated by a newline. -/
theorem c9_end_to_end :
    parse c9input =
      .ok ⟨"t".data, "d".data, "p".data, .Real, 2, 2,
        [⟨"time".data, "time".data, [.lit 0, .lit 1], none⟩,
         ⟨"v1".data, "voltage".data, [.lit 1, .lit 2], none⟩]⟩ ∧
      parse_and_get_csv c9input =
        .ok "time - time,v1 - voltage\n0,1\n1,2\n".data :=
  ⟨by decide, by decide⟩

/-- C10: `parse` on the empty string succeeds with the default Document
(empty metadata strings, Real flags, zero counts, no series), and the
same holds for every input all of whose lines are blank after
trimming. -/
theorem c10_empty_and_blank :
    parse "" = .ok ⟨[], [], [], .Real, 0, 0, []⟩ ∧
      ∀ f : String, (∀ l ∈ rustLines f.data, (trimL l).length = 0) →
        parse f = .ok ⟨[], [], [], .Real, 0, 0, []⟩ := by
  constructor
  · decide
  · intro f h
    unfold parse parseRaw
    rw [runLines_blank (rustLines f.data) initState h]
    rfl

/-- C10 witness: the blank-lines conjunct applied to an input of three
blank lines (empty, a space, a tab). -/
theorem c10_empty_and_blank_witness :
    parse "\n \n\t\n" = .ok ⟨[], [], [], .Real, 0, 0, []⟩ :=
  c10_empty_and_blank.2 "\n \n\t\n" (by decide)
